import Mathlib

/-!
Shallow embedding of the audio-recorder controller of this repository
(the `useAudioRecorder` hook).  The controller state is a `World`:
the published `RecordingStatus` snapshot together with the mutable refs
the hook keeps (media recorder, analyser, pending animation frame,
interval timer, audio context, chunk buffer) and explicit resource
accounting (acquired and released device streams, live interval timers)
used to state the resource claims.

Platform semantics modelled here:
- `MediaRecorder.stop()` on an inactive recorder is a no-op and fires no
  `onstop` event (current MediaStream Recording specification), so a
  promise waiting on `onstop` never resolves in that case;
- `cancelAnimationFrame` / `clearInterval` on a stale id are no-ops;
- `AudioContext.close()` on an already closed context rejects
  asynchronously and does not throw into the caller;
- the analyser has `fftSize = 256`, hence 128 frequency bins; a metering
  frame is modelled as the list of byte magnitudes read from it.

Cooperative single-threaded scheduling: user operations and the two
periodic callbacks (1-second tick, animation-frame sampler) are
interleaved as discrete events; callbacks read the live state.
-/

/-- The `AudioRecorderState` snapshot published via `setState`. -/
structure RecordingStatus where
  isRecording : Bool
  isPaused : Bool
  recordingTime : Nat
  audioLevel : ℚ
  deriving DecidableEq, Repr

/-- States of a `MediaRecorder` object. -/
inductive RecState where
  | recording
  | paused
  | inactive
  deriving DecidableEq, Repr

/-- One raw audio chunk delivered by `ondataavailable` (opaque bytes). -/
abbrev Chunk := List Nat

/-- The blob assembled on stop: the ordered chunk list (opaque payload). -/
abbrev Blob := List Chunk

/-- Full controller state: the status snapshot, the refs of the hook, and
resource accounting for streams, intervals and audio contexts. -/
structure World where
  status : RecordingStatus
  /-- `mediaRecorderRef.current`: the current recorder object, if any. -/
  mediaRecorder : Option RecState
  /-- `analyserRef.current` is set (never cleared by the source). -/
  analyser : Bool
  /-- an animation-frame callback is scheduled and not yet cancelled. -/
  pendingFrame : Bool
  /-- `intervalRef.current`: id of the most recently created interval. -/
  intervalRef : Option Nat
  /-- ids of interval timers that are still firing. -/
  liveIntervalIds : List Nat
  nextIntervalId : Nat
  /-- `audioContextRef.current`: id of the most recent audio context. -/
  ctxRef : Option Nat
  /-- ids of audio contexts not yet closed. -/
  openCtxIds : List Nat
  nextCtxId : Nat
  /-- `audioChunksRef.current`. -/
  chunks : List Chunk
  /-- device streams handed out by `getUserMedia`. -/
  streamsAcquired : Nat
  /-- device streams whose tracks were stopped.  The source never calls
  `track.stop()` on the captured stream, so no operation below ever
  increments this counter. -/
  streamsReleased : Nat
  /-- `console.error` output. -/
  log : List String
  deriving DecidableEq, Repr

/-- Initial hook state. -/
def World.init : World where
  status := ⟨false, false, 0, 0⟩
  mediaRecorder := none
  analyser := false
  pendingFrame := false
  intervalRef := none
  liveIntervalIds := []
  nextIntervalId := 0
  ctxRef := none
  openCtxIds := []
  nextCtxId := 0
  chunks := []
  streamsAcquired := 0
  streamsReleased := 0
  log := []

/-- Normalized level computed by `updateAudioLevel`:
`min(average / 128, 1)` over the current analysis frame. -/
def clampLevel (f : List Nat) : ℚ :=
  min (((f.sum : ℚ) / (f.length : ℚ)) / 128) 1

/-- The `updateAudioLevel` callback: returns early when no analyser is
set; otherwise publishes the clamped level and reschedules itself via
`requestAnimationFrame` exactly when `isRecording && !isPaused`. -/
def updateAudioLevel (f : List Nat) (w : World) : World :=
  if w.analyser then
    { w with
      status := { w.status with audioLevel := clampLevel f }
      pendingFrame := w.status.isRecording && !w.status.isPaused }
  else w

/-- Error taxonomy of the specification for `start()`. -/
inductive StartError where
  | deviceUnavailable
  deriving DecidableEq, Repr

/-- `startRecording`.  `granted` is the outcome of the `getUserMedia`
request; `f` is the first analysis frame read by the inline
`updateAudioLevel()` call.  On denial the catch block only writes to
`console.error`; no error value reaches the caller, so the returned
error component is `none` on both paths.  On grant: a new stream is
acquired, a new audio context and analyser are created, a new recorder
is created and started, the chunk buffer is emptied, `setState` sets
`isRecording := true` and `recordingTime := 0` (spreading the previous
state, so `isPaused` and `audioLevel` are carried over), a new 1-second
interval is created (without clearing any previous one), and
`updateAudioLevel()` runs once. -/
def startRecording (granted : Bool) (f : List Nat) (w : World) :
    World × Option StartError :=
  if granted then
    let w1 : World :=
      { w with
        streamsAcquired := w.streamsAcquired + 1
        ctxRef := some w.nextCtxId
        openCtxIds := w.nextCtxId :: w.openCtxIds
        nextCtxId := w.nextCtxId + 1
        analyser := true
        mediaRecorder := some RecState.recording
        chunks := []
        status := { w.status with isRecording := true, recordingTime := 0 }
        intervalRef := some w.nextIntervalId
        liveIntervalIds := w.nextIntervalId :: w.liveIntervalIds
        nextIntervalId := w.nextIntervalId + 1 }
    (updateAudioLevel f w1, none)
  else
    ({ w with log := w.log ++ ["Error starting recording"] }, none)

/-- Outcome of the promise returned by `stopRecording`. -/
inductive StopOutcome where
  | resolved (payload : Option Blob)
  | hangs
  deriving DecidableEq, Repr

/-- Clearing a timer or context through a ref that may be unset:
`if (ref.current) clear(ref.current)`. -/
def eraseOpt : Option Nat → List Nat → List Nat
  | none, l => l
  | some i, l => l.erase i

/-- `stopRecording`.  Resolves `null` when no recorder was ever created
(the ref is never cleared afterwards).  Otherwise it installs `onstop`,
calls `recorder.stop()`, clears the current interval id, cancels the
pending animation frame, closes the current audio context and resets
`isRecording`, `isPaused`, `audioLevel` (keeping `recordingTime`).  The
`onstop` handler fires only if the recorder was not already inactive;
when it fires it resolves the blob assembled from the chunk buffer,
otherwise the promise never resolves.  The stream tracks are never
stopped. -/
def stopRecording (w : World) : World × StopOutcome :=
  match w.mediaRecorder with
  | none => (w, StopOutcome.resolved none)
  | some r =>
    ({ w with
        mediaRecorder := some RecState.inactive
        liveIntervalIds := eraseOpt w.intervalRef w.liveIntervalIds
        pendingFrame := false
        openCtxIds := eraseOpt w.ctxRef w.openCtxIds
        status := { w.status with
          isRecording := false, isPaused := false, audioLevel := 0 } },
     if r = RecState.inactive then StopOutcome.hangs
     else StopOutcome.resolved (some w.chunks))

/-- `MediaRecorder.pause()`: a recording recorder becomes paused,
otherwise a no-op.  (On an inactive recorder the platform call would
throw, but the guard of `pauseRecording` makes that unreachable.) -/
def recPause : RecState → RecState
  | RecState.recording => RecState.paused
  | s => s

/-- `MediaRecorder.resume()`: a paused recorder becomes recording,
otherwise a no-op. -/
def recResume : RecState → RecState
  | RecState.paused => RecState.recording
  | s => s

/-- `pauseRecording`: guarded by a recorder existing and
`state.isRecording`; pauses the recorder, sets `isPaused := true` and
cancels the pending animation frame.  The 1-second interval is NOT
cleared. -/
def pauseRecording (w : World) : World :=
  if w.mediaRecorder.isSome && w.status.isRecording then
    { w with
      mediaRecorder := w.mediaRecorder.map recPause
      status := { w.status with isPaused := true }
      pendingFrame := false }
  else w

/-- `resumeRecording`: guarded by a recorder existing and
`state.isPaused`; resumes the recorder, clears `isPaused` and restarts
the sampling loop by calling `updateAudioLevel` with the current frame
`f`. -/
def resumeRecording (f : List Nat) (w : World) : World :=
  if w.mediaRecorder.isSome && w.status.isPaused then
    updateAudioLevel f
      { w with
        mediaRecorder := w.mediaRecorder.map recResume
        status := { w.status with isPaused := false } }
  else w

/-- A live interval timer with id `i` fires: its callback increments
`recordingTime` by 1 (unconditionally).  A cleared timer does nothing. -/
def tickFire (i : Nat) (w : World) : World :=
  if i ∈ w.liveIntervalIds then
    { w with status := { w.status with
        recordingTime := w.status.recordingTime + 1 } }
  else w

/-- The scheduled animation-frame callback fires with analysis frame
`f`: it is consumed and runs `updateAudioLevel`. -/
def frameFire (f : List Nat) (w : World) : World :=
  if w.pendingFrame then updateAudioLevel f { w with pendingFrame := false }
  else w

/-- `ondataavailable` delivers a chunk while the recorder is recording. -/
def chunkArrive (c : Chunk) (w : World) : World :=
  if w.mediaRecorder = some RecState.recording then
    { w with chunks := w.chunks ++ [c] }
  else w

/-- Events of the cooperative schedule: the four user operations and the
three environment callbacks. -/
inductive Event where
  | start (granted : Bool) (f : List Nat)
  | stop
  | pause
  | resume (f : List Nat)
  | tick (i : Nat)
  | frame (f : List Nat)
  | chunk (c : Chunk)
  deriving DecidableEq, Repr

/-- State transition of one event (promise outcomes discarded). -/
def step (e : Event) (w : World) : World :=
  match e with
  | Event.start g f => (startRecording g f w).1
  | Event.stop => (stopRecording w).1
  | Event.pause => pauseRecording w
  | Event.resume f => resumeRecording f w
  | Event.tick i => tickFire i w
  | Event.frame f => frameFire f w
  | Event.chunk c => chunkArrive c w

/-- Run an event sequence from a given state, in order. -/
def runFrom (w : World) : List Event → World
  | [] => w
  | e :: es => runFrom (step e w) es

/-- Run an event sequence from the initial hook state.  A state is
reachable exactly when it is `run es` for some event list `es`. -/
def run (es : List Event) : World := runFrom World.init es

theorem runFrom_append (w : World) (es fs : List Event) :
    runFrom w (es ++ fs) = runFrom (runFrom w es) fs := by
  induction es generalizing w with
  | nil => rfl
  | cons e es ih => simp [runFrom, ih]

/-! ## Inductive invariant of the reachable states -/

/-- Invariant preserved by every event: the published level stays in
[0, 1] and is 0 whenever not recording; `isPaused` implies
`isRecording`; a scheduled animation frame exists only while recording
and not paused. -/
def RecorderInv (w : World) : Prop :=
  0 ≤ w.status.audioLevel ∧ w.status.audioLevel ≤ 1 ∧
  (w.status.isRecording = false → w.status.audioLevel = 0) ∧
  (w.status.isPaused = true → w.status.isRecording = true) ∧
  (w.pendingFrame = true →
    w.status.isRecording = true ∧ w.status.isPaused = false)

theorem clampLevel_nonneg (f : List Nat) : 0 ≤ clampLevel f := by
  unfold clampLevel
  have h : (0 : ℚ) ≤ ((f.sum : ℚ) / (f.length : ℚ)) / 128 := by
    apply div_nonneg
    · exact div_nonneg (by positivity) (by positivity)
    · norm_num
  exact le_min h (by norm_num)

theorem clampLevel_le_one (f : List Nat) : clampLevel f ≤ 1 :=
  min_le_right _ _

theorem inv_init : RecorderInv World.init := by
  constructor <;> simp [World.init]

/-! Equation lemmas reducing each operation under its guard. -/

theorem startRecording_denied (f : List Nat) (w : World) :
    startRecording false f w =
      ({ w with log := w.log ++ ["Error starting recording"] }, none) := rfl

theorem startRecording_granted (f : List Nat) (w : World) :
    startRecording true f w =
      ({ w with
          streamsAcquired := w.streamsAcquired + 1
          ctxRef := some w.nextCtxId
          openCtxIds := w.nextCtxId :: w.openCtxIds
          nextCtxId := w.nextCtxId + 1
          analyser := true
          mediaRecorder := some RecState.recording
          chunks := []
          status := { isRecording := true, isPaused := w.status.isPaused,
                      recordingTime := 0, audioLevel := clampLevel f }
          intervalRef := some w.nextIntervalId
          liveIntervalIds := w.nextIntervalId :: w.liveIntervalIds
          nextIntervalId := w.nextIntervalId + 1
          pendingFrame := !w.status.isPaused }, none) := rfl

theorem stopRecording_noRecorder (w : World) (hm : w.mediaRecorder = none) :
    stopRecording w = (w, StopOutcome.resolved none) := by
  unfold stopRecording
  rw [hm]

theorem stopRecording_someRecorder (w : World) (r : RecState)
    (hm : w.mediaRecorder = some r) :
    stopRecording w =
      ({ w with
          mediaRecorder := some RecState.inactive
          liveIntervalIds := eraseOpt w.intervalRef w.liveIntervalIds
          pendingFrame := false
          openCtxIds := eraseOpt w.ctxRef w.openCtxIds
          status := { w.status with
            isRecording := false, isPaused := false, audioLevel := 0 } },
       if r = RecState.inactive then StopOutcome.hangs
       else StopOutcome.resolved (some w.chunks)) := by
  unfold stopRecording
  rw [hm]

theorem pauseRecording_active (w : World)
    (hg : (w.mediaRecorder.isSome && w.status.isRecording) = true) :
    pauseRecording w =
      { w with
        mediaRecorder := w.mediaRecorder.map recPause
        status := { w.status with isPaused := true }
        pendingFrame := false } := by
  unfold pauseRecording
  rw [if_pos hg]

theorem pauseRecording_skip (w : World)
    (hg : ¬(w.mediaRecorder.isSome && w.status.isRecording) = true) :
    pauseRecording w = w := by
  unfold pauseRecording
  rw [if_neg hg]

theorem resumeRecording_active (f : List Nat) (w : World)
    (hg : (w.mediaRecorder.isSome && w.status.isPaused) = true) :
    resumeRecording f w =
      updateAudioLevel f
        { w with
          mediaRecorder := w.mediaRecorder.map recResume
          status := { w.status with isPaused := false } } := by
  unfold resumeRecording
  rw [if_pos hg]

theorem resumeRecording_skip (f : List Nat) (w : World)
    (hg : ¬(w.mediaRecorder.isSome && w.status.isPaused) = true) :
    resumeRecording f w = w := by
  unfold resumeRecording
  rw [if_neg hg]

theorem updateAudioLevel_analyser (f : List Nat) (w : World)
    (ha : w.analyser = true) :
    updateAudioLevel f w =
      { w with
        status := { w.status with audioLevel := clampLevel f }
        pendingFrame := w.status.isRecording && !w.status.isPaused } := by
  unfold updateAudioLevel
  rw [if_pos ha]

theorem updateAudioLevel_noAnalyser (f : List Nat) (w : World)
    (ha : ¬w.analyser = true) :
    updateAudioLevel f w = w := by
  unfold updateAudioLevel
  rw [if_neg ha]

theorem inv_step (e : Event) (w : World) (h : RecorderInv w) :
    RecorderInv (step e w) := by
  obtain ⟨h0, h1, h2, h3, h4⟩ := h
  unfold RecorderInv
  cases e with
  | start g f =>
    cases g with
    | false =>
      simp only [step]
      rw [startRecording_denied f w]
      exact ⟨h0, h1, h2, h3, h4⟩
    | true =>
      simp only [step]
      rw [startRecording_granted f w]
      exact ⟨clampLevel_nonneg f, clampLevel_le_one f,
        fun hh => Bool.noConfusion hh, fun _ => rfl,
        fun hh => ⟨rfl, by simpa using hh⟩⟩
  | stop =>
    cases hm : w.mediaRecorder with
    | none =>
      simp only [step]
      rw [stopRecording_noRecorder w hm]
      exact ⟨h0, h1, h2, h3, h4⟩
    | some r =>
      simp only [step]
      rw [stopRecording_someRecorder w r hm]
      exact ⟨le_refl 0, zero_le_one, fun _ => rfl,
        fun hh => Bool.noConfusion hh, fun hh => Bool.noConfusion hh⟩
  | pause =>
    by_cases hg : (w.mediaRecorder.isSome && w.status.isRecording) = true
    · have hr : w.status.isRecording = true := by
        have h5 := hg
        simp only [Bool.and_eq_true] at h5
        exact h5.2
      simp only [step]
      rw [pauseRecording_active w hg]
      exact ⟨h0, h1, h2, fun _ => hr, fun hh => Bool.noConfusion hh⟩
    · simp only [step]
      rw [pauseRecording_skip w hg]
      exact ⟨h0, h1, h2, h3, h4⟩
  | resume f =>
    by_cases hg : (w.mediaRecorder.isSome && w.status.isPaused) = true
    · have hp : w.status.isPaused = true := by
        have h5 := hg
        simp only [Bool.and_eq_true] at h5
        exact h5.2
      have hrec : w.status.isRecording = true := h3 hp
      simp only [step]
      rw [resumeRecording_active f w hg]
      unfold updateAudioLevel
      by_cases ha : w.analyser = true
      · rw [if_pos ha]
        exact ⟨clampLevel_nonneg f, clampLevel_le_one f,
          fun hh => Bool.noConfusion (hrec.symm.trans hh),
          fun _ => hrec, fun _ => ⟨hrec, rfl⟩⟩
      · rw [if_neg ha]
        exact ⟨h0, h1, h2, fun hh => Bool.noConfusion hh,
          fun hh => ⟨(h4 hh).1, rfl⟩⟩
    · simp only [step]
      rw [resumeRecording_skip f w hg]
      exact ⟨h0, h1, h2, h3, h4⟩
  | tick i =>
    simp only [step]
    unfold tickFire
    by_cases hi : i ∈ w.liveIntervalIds
    · rw [if_pos hi]
      exact ⟨h0, h1, h2, h3, h4⟩
    · rw [if_neg hi]
      exact ⟨h0, h1, h2, h3, h4⟩
  | frame f =>
    simp only [step]
    unfold frameFire
    by_cases hp : w.pendingFrame = true
    · rw [if_pos hp]
      obtain ⟨hrec, hpau⟩ := h4 hp
      unfold updateAudioLevel
      by_cases ha : w.analyser = true
      · rw [if_pos ha]
        exact ⟨clampLevel_nonneg f, clampLevel_le_one f,
          fun hh => Bool.noConfusion (hrec.symm.trans hh),
          fun _ => hrec, fun _ => ⟨hrec, hpau⟩⟩
      · rw [if_neg ha]
        exact ⟨h0, h1, h2, h3, fun hh => Bool.noConfusion hh⟩
    · rw [if_neg hp]
      exact ⟨h0, h1, h2, h3, h4⟩
  | chunk c =>
    simp only [step]
    unfold chunkArrive
    by_cases hc : w.mediaRecorder = some RecState.recording
    · rw [if_pos hc]
      exact ⟨h0, h1, h2, h3, h4⟩
    · rw [if_neg hc]
      exact ⟨h0, h1, h2, h3, h4⟩

theorem inv_runFrom (w : World) (es : List Event) (h : RecorderInv w) :
    RecorderInv (runFrom w es) := by
  induction es generalizing w with
  | nil => exact h
  | cons e es ih => exact ih _ (inv_step e w h)

/-- Every reachable state satisfies the invariant. -/
theorem inv_run (es : List Event) : RecorderInv (run es) :=
  inv_runFrom _ _ inv_init

/-! ## Field-preservation helper lemmas -/

theorem updateAudioLevel_recordingTime (f : List Nat) (w : World) :
    (updateAudioLevel f w).status.recordingTime = w.status.recordingTime := by
  unfold updateAudioLevel
  split <;> rfl

theorem updateAudioLevel_streamsReleased (f : List Nat) (w : World) :
    (updateAudioLevel f w).streamsReleased = w.streamsReleased := by
  unfold updateAudioLevel
  split <;> rfl

theorem stopRecording_recordingTime (w : World) :
    (stopRecording w).1.status.recordingTime = w.status.recordingTime := by
  cases hm : w.mediaRecorder with
  | none => rw [stopRecording_noRecorder w hm]
  | some r => rw [stopRecording_someRecorder w r hm]

theorem pauseRecording_recordingTime (w : World) :
    (pauseRecording w).status.recordingTime = w.status.recordingTime := by
  unfold pauseRecording
  split <;> rfl

theorem resumeRecording_recordingTime (f : List Nat) (w : World) :
    (resumeRecording f w).status.recordingTime = w.status.recordingTime := by
  unfold resumeRecording
  split
  · rw [updateAudioLevel_recordingTime]
  · rfl

theorem frameFire_recordingTime (f : List Nat) (w : World) :
    (frameFire f w).status.recordingTime = w.status.recordingTime := by
  unfold frameFire
  split
  · rw [updateAudioLevel_recordingTime]
  · rfl

theorem chunkArrive_status (c : Chunk) (w : World) :
    (chunkArrive c w).status = w.status := by
  unfold chunkArrive
  split <;> rfl

theorem tickFire_live (i : Nat) (w : World) (hi : i ∈ w.liveIntervalIds) :
    tickFire i w =
      { w with status := { w.status with
          recordingTime := w.status.recordingTime + 1 } } := by
  unfold tickFire
  rw [if_pos hi]

theorem tickFire_dead (i : Nat) (w : World) (hi : i ∉ w.liveIntervalIds) :
    tickFire i w = w := by
  unfold tickFire
  rw [if_neg hi]

/-- No operation of the hook ever stops the stream tracks. -/
theorem step_streamsReleased (e : Event) (w : World) :
    (step e w).streamsReleased = w.streamsReleased := by
  cases e with
  | start g f =>
    cases g with
    | false => rfl
    | true =>
      simp only [step]
      rw [startRecording_granted f w]
  | stop =>
    cases hm : w.mediaRecorder with
    | none => simp only [step]; rw [stopRecording_noRecorder w hm]
    | some r => simp only [step]; rw [stopRecording_someRecorder w r hm]
  | pause =>
    simp only [step]
    unfold pauseRecording
    split <;> rfl
  | resume f =>
    simp only [step]
    unfold resumeRecording
    split
    · rw [updateAudioLevel_streamsReleased]
    · rfl
  | tick i =>
    simp only [step]
    unfold tickFire
    split <;> rfl
  | frame f =>
    simp only [step]
    unfold frameFire
    split
    · rw [updateAudioLevel_streamsReleased]
    · rfl
  | chunk c =>
    simp only [step]
    unfold chunkArrive
    split <;> rfl

/-! ## Claim theorems -/

/-- C1 counterexample: the claim says elapsedSeconds does not increment
while the session is paused; but in the reachable state after a granted
start followed by pause, the 1-second interval is still live and its
next firing increments recordingTime by 1. -/
theorem C1_counterexample :
    (run [Event.start true [], Event.pause]).status.isPaused = true ∧
    (run [Event.start true [], Event.pause]).status.isRecording = true ∧
    (run [Event.start true [], Event.pause, Event.tick 0]).status.recordingTime
      = (run [Event.start true [], Event.pause]).status.recordingTime + 1 := by
  decide

/-- C1 amended: recordingTime increments by exactly 1 each time a live
interval fires, whether or not the session is paused (pause does not
clear the interval); an id that is not live does nothing; and stopping
while a recorder exists removes the current session interval id from
the live set (so, absent overlapping sessions, no further increments
happen after stop). -/
theorem C1_tick_increment (w : World) (i : Nat) :
    (i ∈ w.liveIntervalIds →
      (tickFire i w).status.recordingTime = w.status.recordingTime + 1) ∧
    (i ∉ w.liveIntervalIds → tickFire i w = w) ∧
    (∀ (r : RecState) (j : Nat), w.mediaRecorder = some r →
      w.intervalRef = some j → w.liveIntervalIds.Nodup →
      j ∉ (stopRecording w).1.liveIntervalIds) := by
  refine ⟨fun hi => ?_, fun hi => tickFire_dead i w hi, fun r j hm hj hd => ?_⟩
  · rw [tickFire_live i w hi]
  · rw [stopRecording_someRecorder w r hm]
    show j ∉ eraseOpt w.intervalRef w.liveIntervalIds
    rw [hj]
    exact hd.not_mem_erase

/-- C1 witness: in the paused state after start and pause, the live
interval id 0 increments recordingTime, a dead id 5 changes nothing,
and after stop the id 0 is no longer live. -/
theorem C1_witness :
    ((tickFire 0 (run [Event.start true [], Event.pause])).status.recordingTime
      = (run [Event.start true [], Event.pause]).status.recordingTime + 1) ∧
    tickFire 5 (run [Event.start true [], Event.pause]) =
      run [Event.start true [], Event.pause] ∧
    0 ∉ (stopRecording
      (run [Event.start true [], Event.pause])).1.liveIntervalIds :=
  ⟨(C1_tick_increment (run [Event.start true [], Event.pause]) 0).1 (by decide),
   (C1_tick_increment (run [Event.start true [], Event.pause]) 5).2.1 (by decide),
   (C1_tick_increment (run [Event.start true [], Event.pause]) 0).2.2
     RecState.paused 0 (by decide) (by decide) (by decide)⟩

/-- C2 counterexample: after a complete session (granted start, then
stop) exactly one device stream was acquired and zero were released, so
the device handle is not released exactly once per session. -/
theorem C2_counterexample :
    (run [Event.start true [], Event.stop]).streamsAcquired = 1 ∧
    (run [Event.start true [], Event.stop]).streamsReleased = 0 := by
  decide

/-- C2 amended: the captured device stream is never released on any
reachable state: no operation of the hook (stop included, on any of its
paths) ever stops the stream tracks, so the release count stays 0
forever. -/
theorem C2_device_never_released (es : List Event) :
    (run es).streamsReleased = 0 := by
  have key : ∀ (w : World) (fs : List Event),
      (runFrom w fs).streamsReleased = w.streamsReleased := by
    intro w fs
    induction fs generalizing w with
    | nil => rfl
    | cons e es ih =>
      show (runFrom (step e w) es).streamsReleased = w.streamsReleased
      rw [ih (step e w), step_streamsReleased]
  exact key World.init es

/-- C7 counterexample: a second granted start while the first session is
still active leaves two live intervals (duplicate ticking: two firings
within the same second push recordingTime to 2), two acquired streams
and zero released — the previous session is not torn down. -/
theorem C7_counterexample :
    (run [Event.start true [], Event.start true []]).liveIntervalIds.length
      = 2 ∧
    (run [Event.start true [], Event.start true [],
      Event.tick 0, Event.tick 1]).status.recordingTime = 2 ∧
    (run [Event.start true [], Event.start true []]).streamsAcquired = 2 ∧
    (run [Event.start true [], Event.start true []]).streamsReleased = 0 := by
  decide

/-- C7 amended: a granted start performs no teardown of a previous
session: every previously live interval keeps firing (one fresh
interval is added), the previous stream stays acquired and unreleased
(one fresh stream is acquired); only the refs are overwritten. -/
theorem C7_start_no_teardown (f : List Nat) (w : World) :
    (startRecording true f w).1.liveIntervalIds.length =
      w.liveIntervalIds.length + 1 ∧
    (∀ i, i ∈ w.liveIntervalIds →
      i ∈ (startRecording true f w).1.liveIntervalIds) ∧
    (startRecording true f w).1.streamsAcquired = w.streamsAcquired + 1 ∧
    (startRecording true f w).1.streamsReleased = w.streamsReleased := by
  rw [startRecording_granted f w]
  exact ⟨rfl, fun i hi => List.mem_cons_of_mem _ hi, rfl, rfl⟩

/-- C7 witness: starting on top of the one-session state keeps its
interval 0 live and ends with two live intervals. -/
theorem C7_witness :
    (startRecording true [] (run [Event.start true []])).1.liveIntervalIds.length = 2 ∧
    0 ∈ (startRecording true [] (run [Event.start true []])).1.liveIntervalIds := by
  constructor
  · rw [(C7_start_no_teardown [] (run [Event.start true []])).1]
    decide
  · exact (C7_start_no_teardown [] (run [Event.start true []])).2.1 0 (by decide)

/-- C3 counterexample: the claim says the second of two consecutive
stop calls returns null; but after start and stop the recorder ref is
still set (it is never cleared), so the second call re-enters the
non-null branch, the inactive recorder fires no onstop, and the promise
hangs instead of resolving null. -/
theorem C3_counterexample :
    (stopRecording (run [Event.start true [], Event.stop])).2 ≠
      StopOutcome.resolved none ∧
    (stopRecording (run [Event.start true [], Event.stop])).2 =
      StopOutcome.hangs := by
  decide

/-- C3 amended: the first stop of a live session resolves the captured
payload (and stop with no session ever started resolves null, without
throwing); a second consecutive stop does not throw either, but its
promise never resolves — it does not resolve null — because the
recorder ref is never cleared and an inactive recorder fires no onstop. -/
theorem C3_double_stop (w : World) (r : RecState)
    (hm : w.mediaRecorder = some r) (hr : r ≠ RecState.inactive) :
    (stopRecording w).2 = StopOutcome.resolved (some w.chunks) ∧
    (stopRecording (stopRecording w).1).2 = StopOutcome.hangs ∧
    (stopRecording World.init).2 = StopOutcome.resolved none := by
  refine ⟨?_, ?_, rfl⟩
  · rw [stopRecording_someRecorder w r hm]
    show (if r = RecState.inactive then StopOutcome.hangs
      else StopOutcome.resolved (some w.chunks)) = _
    rw [if_neg hr]
  · have hm2 : (stopRecording w).1.mediaRecorder = some RecState.inactive := by
      rw [stopRecording_someRecorder w r hm]
    rw [stopRecording_someRecorder (stopRecording w).1 RecState.inactive hm2]
    rfl

/-- C3 witness: concretely, after one granted start the first stop
resolves the (empty) payload and the second stop hangs. -/
theorem C3_witness :
    (stopRecording (run [Event.start true []])).2 =
      StopOutcome.resolved (some (run [Event.start true []]).chunks) ∧
    (stopRecording (stopRecording (run [Event.start true []])).1).2 =
      StopOutcome.hangs ∧
    (stopRecording World.init).2 = StopOutcome.resolved none :=
  C3_double_stop (run [Event.start true []]) RecState.recording
    (by decide) (by decide)

/-- C4 counterexample: the status immediately after a granted start is
not always the claimed record: starting while paused carries the old
isPaused over (the setState spread only writes isRecording and
recordingTime), and a loud first analysis frame makes the level 1, not
0, immediately after start. -/
theorem C4_counterexample :
    (run [Event.start true [], Event.pause,
      Event.start true []]).status.isPaused = true ∧
    (run [Event.start true [256]]).status.audioLevel = 1 := by
  constructor
  · decide
  · show clampLevel [256] = 1
    unfold clampLevel
    rw [min_eq_right (by norm_num [List.sum_cons, List.sum_nil])]

/-- C4 amended: a granted start sets isRecording := true and
recordingTime := 0 but carries over the previous isPaused, and the
inline sampling call then publishes the level of the first analysis
frame rather than 0; only from a state with isPaused = false and a
silent first frame does the claimed record result. -/
theorem C4_start_status (f : List Nat) (w : World) :
    (startRecording true f w).1.status =
      { isRecording := true, isPaused := w.status.isPaused,
        recordingTime := 0, audioLevel := clampLevel f } := by
  rw [startRecording_granted f w]

/-- C6 counterexample: on device denial the operation does not report
DeviceUnavailable to the caller — the catch block swallows the error
(logging it) and the async call resolves with no error value. -/
theorem C6_counterexample :
    (startRecording false [] World.init).2 ≠
      some StartError.deviceUnavailable ∧
    (startRecording false [] World.init).2 = none := by
  decide

/-- C6 amended: on device denial the status and all session state are
left unchanged — no recorder, no interval, no pending frame, no stream,
no analyser, no audio context is created — but the failure is only
appended to the console log; no error value reaches the caller. -/
theorem C6_denied_start_silent (f : List Nat) (w : World) :
    (startRecording false f w).1.status = w.status ∧
    (startRecording false f w).1.mediaRecorder = w.mediaRecorder ∧
    (startRecording false f w).1.intervalRef = w.intervalRef ∧
    (startRecording false f w).1.liveIntervalIds = w.liveIntervalIds ∧
    (startRecording false f w).1.pendingFrame = w.pendingFrame ∧
    (startRecording false f w).1.analyser = w.analyser ∧
    (startRecording false f w).1.ctxRef = w.ctxRef ∧
    (startRecording false f w).1.streamsAcquired = w.streamsAcquired ∧
    (startRecording false f w).2 = none ∧
    (startRecording false f w).1.log =
      w.log ++ ["Error starting recording"] := by
  rw [startRecording_denied f w]
  exact ⟨rfl, rfl, rfl, rfl, rfl, rfl, rfl, rfl, rfl, rfl⟩

/-- C10 counterexample: a recorder exists after start and stop, yet
calling stop in that state does not resolve to a payload at all — the
promise hangs (the recorder is already inactive), so stop does not
always resolve non-null whenever a recorder exists. -/
theorem C10_counterexample :
    (run [Event.start true [], Event.stop]).mediaRecorder ≠ none ∧
    (stopRecording (run [Event.start true [], Event.stop])).2 =
      StopOutcome.hangs ∧
    StopOutcome.hangs ≠ StopOutcome.resolved
      (some (run [Event.start true [], Event.stop]).chunks) := by
  decide

/-- C10 amended: stop resolves null exactly when no recorder was ever
created; whenever a recorder exists and is not already inactive, stop
resolves a non-null payload even when zero chunks were produced (the
empty chunk list yields a non-null empty payload); with an
already-inactive recorder the promise never resolves. -/
theorem C10_stop_payload (w : World) :
    ((stopRecording w).2 = StopOutcome.resolved none ↔
      w.mediaRecorder = none) ∧
    (∀ r : RecState, w.mediaRecorder = some r → r ≠ RecState.inactive →
      (stopRecording w).2 = StopOutcome.resolved (some w.chunks)) ∧
    (w.mediaRecorder = some RecState.inactive →
      (stopRecording w).2 = StopOutcome.hangs) := by
  refine ⟨⟨fun h => ?_, fun h => ?_⟩, fun r hm hr => ?_, fun hm => ?_⟩
  · cases hm : w.mediaRecorder with
    | none => rfl
    | some r =>
      rw [stopRecording_someRecorder w r hm] at h
      by_cases hr : r = RecState.inactive
      · rw [if_pos hr] at h
        exact absurd h (by simp)
      · rw [if_neg hr] at h
        exact absurd h (by simp)
  · rw [stopRecording_noRecorder w h]
  · rw [stopRecording_someRecorder w r hm]
    show (if r = RecState.inactive then StopOutcome.hangs
      else StopOutcome.resolved (some w.chunks)) = _
    rw [if_neg hr]
  · rw [stopRecording_someRecorder w RecState.inactive hm]
    rfl

/-- C10 witness: a freshly started session has a live recorder and an
empty chunk buffer, and stop resolves the non-null empty payload; on
the never-started initial state stop resolves null. -/
theorem C10_witness :
    (stopRecording (run [Event.start true []])).2 =
      StopOutcome.resolved (some []) ∧
    (stopRecording World.init).2 = StopOutcome.resolved none :=
  ⟨(C10_stop_payload (run [Event.start true []])).2.1 RecState.recording
      (by decide) (by decide),
   (C10_stop_payload World.init).1.2 (by decide)⟩

/-- C5: in every reachable state the published level lies in [0, 1] and
is 0 whenever not recording; and a metering-loop sample (with the
analyser present) publishes exactly min(average / 128, 1) over the
current analysis frame. -/
theorem C5_level_invariant (es : List Event) (w : World) (f : List Nat) :
    (0 ≤ (run es).status.audioLevel ∧ (run es).status.audioLevel ≤ 1) ∧
    ((run es).status.isRecording = false →
      (run es).status.audioLevel = 0) ∧
    (w.analyser = true →
      (updateAudioLevel f w).status.audioLevel =
        min (((f.sum : ℚ) / (f.length : ℚ)) / 128) 1) := by
  obtain ⟨h0, h1, h2, _, _⟩ := inv_run es
  refine ⟨⟨h0, h1⟩, h2, fun ha => ?_⟩
  rw [updateAudioLevel_analyser f w ha]
  rfl

/-- C5 witness: after start and stop the level is 0 while not recording,
and a sample of the loud frame [256] in the started state publishes
min(256 / 128, 1) = 1. -/
theorem C5_witness :
    (run [Event.start true [], Event.stop]).status.audioLevel = 0 ∧
    (updateAudioLevel [256]
      (run [Event.start true []])).status.audioLevel = 1 := by
  constructor
  · exact (C5_level_invariant [Event.start true [], Event.stop]
      World.init []).2.1 (by decide)
  · rw [(C5_level_invariant [] (run [Event.start true []]) [256]).2.2
      (by decide)]
    rw [min_eq_right (by norm_num [List.sum_cons, List.sum_nil])]

/-- C8: the invariant that isPaused implies isRecording holds in every
state reachable from the initial status by any sequence of operations
and periodic callbacks. -/
theorem C8_paused_implies_recording (es : List Event)
    (h : (run es).status.isPaused = true) :
    (run es).status.isRecording = true :=
  (inv_run es).2.2.2.1 h

/-- C8 witness: the reachable state after start and pause is paused, and
the theorem yields that it is recording. -/
theorem C8_witness :
    (run [Event.start true [], Event.pause]).status.isPaused = true ∧
    (run [Event.start true [], Event.pause]).status.isRecording = true :=
  ⟨by decide,
   C8_paused_implies_recording [Event.start true [], Event.pause] (by decide)⟩

/-- C9: stop with a recorder present resets isRecording, isPaused and
audioLevel to false, false, 0 while leaving recordingTime at its last
value; and no event other than a start ever resets recordingTime to 0
(it either preserves it or increments it). -/
theorem C9_stop_frame_effect (w : World) (r : RecState)
    (hm : w.mediaRecorder = some r) :
    ((stopRecording w).1.status.isRecording = false ∧
     (stopRecording w).1.status.isPaused = false ∧
     (stopRecording w).1.status.audioLevel = 0 ∧
     (stopRecording w).1.status.recordingTime = w.status.recordingTime) ∧
    (∀ (v : World) (e : Event), (∀ g f, e ≠ Event.start g f) →
      (step e v).status.recordingTime = 0 →
      v.status.recordingTime = 0) := by
  constructor
  · rw [stopRecording_someRecorder w r hm]
    exact ⟨rfl, rfl, rfl, rfl⟩
  · intro v e hne h0
    cases e with
    | start g f => exact absurd rfl (hne g f)
    | stop =>
      rwa [show (step Event.stop v) = (stopRecording v).1 from rfl,
        stopRecording_recordingTime] at h0
    | pause =>
      rwa [show (step Event.pause v) = pauseRecording v from rfl,
        pauseRecording_recordingTime] at h0
    | resume f =>
      rwa [show (step (Event.resume f) v) = resumeRecording f v from rfl,
        resumeRecording_recordingTime] at h0
    | tick i =>
      by_cases hi : i ∈ v.liveIntervalIds
      · rw [show (step (Event.tick i) v) = tickFire i v from rfl,
          tickFire_live i v hi] at h0
        exact absurd h0 (Nat.succ_ne_zero _)
      · rwa [show (step (Event.tick i) v) = tickFire i v from rfl,
          tickFire_dead i v hi] at h0
    | frame f =>
      rwa [show (step (Event.frame f) v) = frameFire f v from rfl,
        frameFire_recordingTime] at h0
    | chunk c =>
      rwa [show (step (Event.chunk c) v) = chunkArrive c v from rfl,
        chunkArrive_status] at h0

/-- C9 witness: stopping the session that has ticked once keeps
recordingTime at 1 while clearing the flags and the level, and a pause
event that yields recordingTime 0 must have started from 0. -/
theorem C9_witness :
    ((stopRecording (run [Event.start true [], Event.tick 0])).1.status.isRecording = false ∧
     (stopRecording (run [Event.start true [], Event.tick 0])).1.status.isPaused = false ∧
     (stopRecording (run [Event.start true [], Event.tick 0])).1.status.audioLevel = 0 ∧
     (stopRecording (run [Event.start true [], Event.tick 0])).1.status.recordingTime =
       (run [Event.start true [], Event.tick 0]).status.recordingTime) ∧
    ((step Event.pause World.init).status.recordingTime = 0 →
      World.init.status.recordingTime = 0) := by
  have h := C9_stop_frame_effect (run [Event.start true [], Event.tick 0])
    RecState.recording (by decide)
  exact ⟨h.1, h.2 World.init Event.pause (fun g f hh => Event.noConfusion hh)⟩
